import Mathlib

/-!
Verification of the learn-go HTTP microservice core (request handling and
middleware composition), shallowly embedded in Lean 4.

The embedding covers:
* the `net/http` response-writer discipline (headers are only effective until
  the status line is written; the first `Write` implies `WriteHeader 200`),
* the middleware chain exactly as installed by `internal/router/router.go`
  (gorilla mux applies the first `Use` middleware outermost):
  Logging, CORS, SecurityHeaders, Metrics, then the tracing wrapper,
* the handler set from `internal/handlers` (`Ping`, `Healthz`, `Info`,
  `Version`, `Echo`, `NewHandlers`) with Go runtime faults (integer division
  by zero, nil-pointer dereference, index out of range) made explicit via an
  `Except GoPanic` result, since the handlers discard the errors returned by
  the gopsutil introspection calls,
* the Go standard library semantics of `json.Decoder.Decode` into
  `interface\x7b\x7d`: skip leading whitespace, decode ONE JSON value, and leave any
  trailing bytes unread (trailing garbage is not an error for the first
  `Decode` call).

Machine integers are `Nat` with an explicit reduction modulo `2 ^ 64` where
the Go source performs `uint64` arithmetic that can overflow. `float64`
values that the source merely copies (uptime seconds, CPU percent) are
carried as opaque `Nat` values: the source performs no arithmetic on them,
so only their presence is observable in the properties below.
-/

namespace LearnGo

/-! ## Environment

`os.Getenv` is modelled as a total map from variable names to values; an
unset variable reads as the empty string, exactly as in Go. -/

def Env : Type := String → String

/-- The `if v == "" then default else v` pattern used throughout the source
(`NewHandlers`, `CORSMiddleware`, `main`). -/
def getenvDefault (env : Env) (key dflt : String) : String :=
  if env key = "" then dflt else env key

/-! ## HTTP requests and the response writer

An `http.Request` as observed by this service: method, URL path, header map
(Go: `map[string][]string`, unique keys), raw body bytes. -/

structure Request where
  method : String
  path : String
  headers : List (String × List String)
  body : String
deriving Repr, DecidableEq

/-- `Header().Set`: replaces the value of an existing header name, otherwise
appends the pair. Names in this development are already in MIME canonical
form, so canonicalisation is the identity. -/
def headerSet : List (String × String) → String → String → List (String × String)
  | [], k, v => [(k, v)]
  | (k', v') :: rest, k, v =>
      if k' = k then (k, v) :: rest else (k', v') :: headerSet rest k v

/-- `Header().Get`: first value stored under a name, if any. -/
def headerGet : List (String × String) → String → Option String
  | [], _ => none
  | (k', v') :: rest, k => if k' = k then some v' else headerGet rest k

/-- One primitive effect a handler can perform on an `http.ResponseWriter`. -/
inductive WriterOp where
  | setHeader (k v : String)
  | writeHeader (code : Nat)
  | write (s : String)
deriving Repr, DecidableEq

/-- The response as sent on the wire: effective headers, status line, body. -/
structure ResponseRecorder where
  headers : List (String × String)
  status : Option Nat
  body : String
deriving Repr, DecidableEq

def ResponseRecorder.init : ResponseRecorder :=
  { headers := [], status := none, body := "" }

/-- `net/http` writer discipline: a header set after the status line has been
written does not reach the wire; a second `WriteHeader` is ignored; the first
body `Write` flushes an implicit `WriteHeader 200`. -/
def applyOp (w : ResponseRecorder) : WriterOp → ResponseRecorder
  | .setHeader k v =>
      if w.status.isSome then w else { w with headers := headerSet w.headers k v }
  | .writeHeader code =>
      if w.status.isSome then w else { w with status := some code }
  | .write s =>
      let w' := if w.status.isSome then w else { w with status := some 200 }
      { w' with body := w'.body ++ s }

def runOps (ops : List WriterOp) (w : ResponseRecorder) : ResponseRecorder :=
  ops.foldl applyOp w

/-! ## Middleware chain (`internal/middleware`, composed in `internal/router`)

A handler is the sequence of writer effects it performs on a request; a
middleware transforms handlers, exactly as `func(http.Handler) http.Handler`. -/

def Handler : Type := Request → List WriterOp

def Middleware : Type := Handler → Handler

/-- `LoggingMiddleware`: writes a log line (to standard error, not to the
response — suppressed when `GO_ENV=test`) and forwards. It performs no
writer effect of its own. -/
def LoggingMiddleware (env : Env) : Middleware := fun next r =>
  -- the env read and the log call affect only the process log
  let _ := env "GO_ENV"
  next r

/-- `CORSMiddleware`: sets the three CORS headers (origin from `CORS_ORIGIN`,
default "*"); on an OPTIONS request it writes status 200 and returns without
invoking `next` (preflight short-circuit). -/
def CORSMiddleware (env : Env) : Middleware := fun next r =>
  let origin := if env "CORS_ORIGIN" = "" then "*" else env "CORS_ORIGIN"
  [WriterOp.setHeader "Access-Control-Allow-Origin" origin,
   WriterOp.setHeader "Access-Control-Allow-Methods" "GET, POST, PUT, DELETE, OPTIONS",
   WriterOp.setHeader "Access-Control-Allow-Headers" "Content-Type, Authorization"] ++
  (if r.method = "OPTIONS" then [WriterOp.writeHeader 200] else next r)

/-- `SecurityHeadersMiddleware`: unconditionally sets the five security
headers, then forwards. -/
def SecurityHeadersMiddleware : Middleware := fun next r =>
  [WriterOp.setHeader "X-Content-Type-Options" "nosniff",
   WriterOp.setHeader "X-Frame-Options" "DENY",
   WriterOp.setHeader "X-XSS-Protection" "1; mode=block",
   WriterOp.setHeader "Referrer-Policy" "strict-origin-when-cross-origin",
   WriterOp.setHeader "Content-Security-Policy" "default-src \x27self\x27"] ++
  next r

/-- `MetricsMiddleware`: observes the wrapped writer's status and timing into
Prometheus collectors (skipping `/metrics`); it performs no writer effect of
its own, so on the wire it is the identity wrapper. -/
def MetricsMiddleware : Middleware := fun next r =>
  let _ := r.path = "/metrics"
  next r

/-- The `otelhttp.NewHandler` tracing wrapper installed last in `NewRouter`:
pure instrumentation, no writer effect. -/
def TracingMiddleware : Middleware := fun next r => next r

/-- The chain exactly as installed by `NewRouter` (`router.go` lines 29-37).
gorilla mux wraps in reverse `Use` order, so the first registered middleware
is outermost: Logging(CORS(SecurityHeaders(Metrics(Tracing(handler))))). -/
def middlewareChain (env : Env) (h : Handler) : Handler :=
  LoggingMiddleware env
    (CORSMiddleware env
      (SecurityHeadersMiddleware
        (MetricsMiddleware
          (TracingMiddleware h))))

/-- Serve one request through the full middleware chain onto a fresh writer. -/
def serveChain (env : Env) (h : Handler) (r : Request) : ResponseRecorder :=
  runOps (middlewareChain env h r) ResponseRecorder.init

/-- `Handlers.Ping` (`handlers.go` lines 88-92): content type `text/plain`,
status 200, body `pong`. -/
def Ping : Handler := fun _ =>
  [WriterOp.setHeader "Content-Type" "text/plain",
   WriterOp.writeHeader 200,
   WriterOp.write "pong"]

/-- The all-unset environment (every variable reads as ""). -/
def emptyEnv : Env := fun _ => ""

/-- A handler that performs no writer effect; used to compare chain outputs. -/
def silentHandler : Handler := fun _ => []

/-! ## Application metadata (`pkg/models`, `NewHandlers`) -/

/-- `models.AppInfo`. -/
structure AppInfo where
  name : String
  version : String
  environment : String
  timestamp : String
deriving Repr, DecidableEq

/-- The handler state: immutable startup metadata plus the start instant
(the clock value is carried as an opaque `Nat`). -/
structure Handlers where
  appInfo : AppInfo
  startTime : Nat
deriving Repr, DecidableEq

/-- `NewHandlers` (`handlers.go` lines 27-49): reads `APP_VERSION`
(default `0.0.1`) and `GO_ENV` (default `development`), stamps the current
UTC RFC3339 time, and records the start instant. -/
def NewHandlers (env : Env) (now : String) (startClock : Nat) : Handlers :=
  let version := if env "APP_VERSION" = "" then "0.0.1" else env "APP_VERSION"
  let goEnv := if env "GO_ENV" = "" then "development" else env "GO_ENV"
  { appInfo :=
      { name := "learn-go"
        version := version
        environment := goEnv
        timestamp := now }
    startTime := startClock }

/-- `models.Response`, the success envelope, with the payload type made
explicit in place of `interface\x7b\x7d`. -/
structure ResponseEnvelope (α : Type) where
  success : Bool
  data : α
  timestamp : String
deriving Repr, DecidableEq

/-- `models.ErrorResponse`. -/
structure ErrorResponse where
  error : Bool
  message : String
  statusCode : Nat
  timestamp : String
deriving Repr, DecidableEq

/-! ## Go runtime faults and `uint64` arithmetic

`Healthz` and `Info` discard the `error` results of the gopsutil calls
(`process.NewProcess`, `p.MemoryInfo`, `mem.VirtualMemory`, `cpu.Percent`);
on failure those calls return a nil pointer (or an empty slice), and the
handler body dereferences or indexes it unconditionally. The possible Go
runtime panics are therefore part of the handler's semantics and are made
explicit here. -/

inductive GoPanic where
  | divideByZero
  | nilDereference
  | indexOutOfRange
deriving Repr, DecidableEq

/-- Reduction modulo `2 ^ 64` for `uint64` multiplication overflow. -/
def u64 (n : Nat) : Nat := n % 18446744073709551616

/-- Go `uint64` division: panics (run-time error) when the divisor is 0. -/
def goUintDiv (a b : Nat) : Except GoPanic Nat :=
  if b = 0 then .error .divideByZero else .ok (a / b)

/-- Go slice indexing: panics when the index is out of range. -/
def goIndex {α : Type} (xs : List α) (i : Nat) : Except GoPanic α :=
  match xs.get? i with
  | some x => .ok x
  | none => .error .indexOutOfRange

/-- Dereference of a possibly-nil Go pointer (the gopsutil results whose
errors the handlers discard): nil dereference is a run-time panic. -/
def goDeref {α : Type} : Option α → Except GoPanic α
  | some x => .ok x
  | none => .error .nilDereference

/-- `process.MemoryInfoStat` (the fields the handlers read). -/
structure MemoryInfoStat where
  rss : Nat
  vms : Nat
deriving Repr, DecidableEq

/-- `mem.VirtualMemoryStat` (the fields the handlers read). -/
structure VirtualMemoryStat where
  total : Nat
  available : Nat
  used : Nat
deriving Repr, DecidableEq

/-- `models.MemoryInfo` as serialised in responses. -/
structure MemoryInfoField where
  rss : Nat
  vms : Nat
  percent : Nat
  available : Nat
  total : Nat
  used : Nat
deriving Repr, DecidableEq

/-- `models.HealthData` (uptime seconds carried opaquely). -/
structure HealthData where
  status : String
  uptime : Nat
  timestamp : String
  memory : MemoryInfoField
  version : String
  environment : String
deriving Repr, DecidableEq

/-- The per-request system snapshot the introspection calls would produce:
`none` / `[]` model a failed call whose error the handler discards. -/
structure SysSnapshot where
  memInfo : Option MemoryInfoStat
  virtualMem : Option VirtualMemoryStat
  cpuPercent : List Nat
  cpuCount : Nat
  uptime : Nat
  goos : String
  goarch : String
  goVersion : String
deriving Repr, DecidableEq

/-- `Handlers.Healthz` (`handlers.go` lines 96-124). The struct literal
evaluates `memInfo.RSS`, `memInfo.VMS`, then
`memInfo.RSS * 100 / virtualMem.Total` — with no guard on
`virtualMem.Total = 0` and no check that the gopsutil pointers are non-nil. -/
def Healthz (h : Handlers) (sys : SysSnapshot) (now : String) :
    Except GoPanic (ResponseEnvelope HealthData) := do
  let memInfo ← goDeref sys.memInfo
  let virtualMem ← goDeref sys.virtualMem
  let percent ← goUintDiv (u64 (memInfo.rss * 100)) virtualMem.total
  .ok
    { success := true
      data :=
        { status := "healthy"
          uptime := sys.uptime
          timestamp := now
          memory :=
            { rss := memInfo.rss
              vms := memInfo.vms
              percent := percent
              available := virtualMem.available
              total := virtualMem.total
              used := 0 }
          version := h.appInfo.version
          environment := h.appInfo.environment }
      timestamp := now }

/-- `models.CPUInfo` (percent, a `float64` copied verbatim, carried opaquely). -/
structure CPUInfoField where
  count : Nat
  percent : Nat
deriving Repr, DecidableEq

/-- `models.SystemInfo`. -/
structure SystemInfo where
  platform : String
  platformRelease : String
  platformVersion : String
  architecture : String
  processor : String
  goVersion : String
  uptime : Nat
  memory : MemoryInfoField
  cpu : CPUInfoField
deriving Repr, DecidableEq

/-- `models.EnvironmentInfo`. -/
structure EnvironmentInfo where
  goEnv : String
  port : String
  host : String
deriving Repr, DecidableEq

/-- `models.InfoData`. -/
structure InfoData where
  application : AppInfo
  system : SystemInfo
  environment : EnvironmentInfo
deriving Repr, DecidableEq

/-- `Handlers.Info` (`handlers.go` lines 128-171): same unguarded memory
arithmetic as `Healthz`, plus `cpuPercent[0]` on the slice returned by
`cpu.Percent`, whose error is also discarded (on failure the slice is empty
and the indexing panics). The memory percent is evaluated before the CPU
field in the struct literal. -/
def Info (h : Handlers) (env : Env) (sys : SysSnapshot) (now : String) :
    Except GoPanic (ResponseEnvelope InfoData) := do
  let memInfo ← goDeref sys.memInfo
  let virtualMem ← goDeref sys.virtualMem
  let percent ← goUintDiv (u64 (memInfo.rss * 100)) virtualMem.total
  let cpu0 ← goIndex sys.cpuPercent 0
  .ok
    { success := true
      data :=
        { application := h.appInfo
          system :=
            { platform := sys.goos
              platformRelease := ""
              platformVersion := ""
              architecture := sys.goarch
              processor := ""
              goVersion := sys.goVersion
              uptime := sys.uptime
              memory :=
                { rss := memInfo.rss
                  vms := memInfo.vms
                  percent := percent
                  available := virtualMem.available
                  total := virtualMem.total
                  used := virtualMem.used }
              cpu := { count := sys.cpuCount, percent := cpu0 } }
          environment :=
            { goEnv := env "GO_ENV"
              port := env "PORT"
              host := env "HOST" } }
      timestamp := now }

/-- `models.VersionData`. -/
structure VersionData where
  version : String
  name : String
  environment : String
deriving Repr, DecidableEq

/-- `Handlers.Version` (`handlers.go` lines 175-188). -/
def Version (h : Handlers) (now : String) : ResponseEnvelope VersionData :=
  { success := true
    data :=
      { version := h.appInfo.version
        name := h.appInfo.name
        environment := h.appInfo.environment }
    timestamp := now }

/-! ## JSON decoding (`encoding/json`, as used by `Handlers.Echo`)

`json.NewDecoder(r.Body).Decode(&data)` with `data` of interface type:
skip leading whitespace, decode exactly ONE JSON value from the stream, and
stop. Bytes after the first complete value are left unread — a body such as
`true false` decodes to `true` with a nil error on the first `Decode` call
(the stream decoder only reports trailing garbage on a subsequent call).
Number literals are kept as their lexeme (Go converts them to `float64`;
the handler only copies the decoded value, so the numeric interpretation is
never observed), and object member lists keep source order. -/

inductive GoJson where
  | null
  | bool (b : Bool)
  | num (lit : String)
  | str (s : String)
  | arr (items : List GoJson)
  | obj (members : List (String × GoJson))

def quoteCh : Char := Char.ofNat 34

def backslashCh : Char := Char.ofNat 92

def lbraceCh : Char := Char.ofNat 123

def rbraceCh : Char := Char.ofNat 125

def isJsonSpace (c : Char) : Bool :=
  c = ' ' ∨ c = '\t' ∨ c = '\n' ∨ c = '\r'

def dropWs : List Char → List Char
  | c :: rest => if isJsonSpace c then dropWs rest else c :: rest
  | [] => []

def isDig (c : Char) : Bool := 48 ≤ c.toNat ∧ c.toNat ≤ 57

def hexDigitVal (c : Char) : Option Nat :=
  if 48 ≤ c.toNat ∧ c.toNat ≤ 57 then some (c.toNat - 48)
  else if 97 ≤ c.toNat ∧ c.toNat ≤ 102 then some (c.toNat - 87)
  else if 65 ≤ c.toNat ∧ c.toNat ≤ 70 then some (c.toNat - 55)
  else none

/-- Single-character escape sequences accepted after a backslash. -/
def escapeVal (c : Char) : Option Char :=
  if c = quoteCh then some quoteCh
  else if c = backslashCh then some backslashCh
  else if c = '/' then some '/'
  else if c = 'b' then some (Char.ofNat 8)
  else if c = 'f' then some (Char.ofNat 12)
  else if c = 'n' then some (Char.ofNat 10)
  else if c = 'r' then some (Char.ofNat 13)
  else if c = 't' then some (Char.ofNat 9)
  else none

/-- Scan a string body after the opening quote, producing the unescaped
content and the input following the closing quote. `\uXXXX` escapes become
the corresponding code point (surrogate-pair recombination, which Go
performs, is not modelled; no property below depends on it). -/
def scanJString : List Char → String → Option (String × List Char)
  | [], _ => none
  | c :: rest, acc =>
      if c = quoteCh then some (acc, rest)
      else if c = backslashCh then
        match rest with
        | 'u' :: h1 :: h2 :: h3 :: h4 :: rest2 =>
            match hexDigitVal h1, hexDigitVal h2, hexDigitVal h3, hexDigitVal h4 with
            | some v1, some v2, some v3, some v4 =>
                scanJString rest2 (acc.push (Char.ofNat (((v1 * 16 + v2) * 16 + v3) * 16 + v4)))
            | _, _, _, _ => none
        | e :: rest2 =>
            match escapeVal e with
            | some ch => scanJString rest2 (acc.push ch)
            | none => none
        | [] => none
      else scanJString rest (acc.push c)

def takeDigits : List Char → List Char × List Char
  | c :: rest =>
      if isDig c then
        let (ds, r) := takeDigits rest
        (c :: ds, r)
      else ([], c :: rest)
  | [] => ([], [])

/-- Optional fraction part: `.` must be followed by at least one digit. -/
def scanFracPart : List Char → Option (List Char × List Char)
  | '.' :: r =>
      let (ds, r2) := takeDigits r
      if ds.isEmpty then none else some ('.' :: ds, r2)
  | cs => some ([], cs)

/-- Optional exponent part: `e`/`E`, optional sign, at least one digit. -/
def scanExpPart : List Char → Option (List Char × List Char)
  | c :: r =>
      if c = 'e' ∨ c = 'E' then
        let (sg, r1) := match r with
          | '+' :: r' => (['+'], r')
          | '-' :: r' => (['-'], r')
          | _ => (([] : List Char), r)
        let (ds, r2) := takeDigits r1
        if ds.isEmpty then none else some (c :: (sg ++ ds), r2)
      else some ([], c :: r)
  | [] => some ([], [])

/-- Scan one number per the JSON grammar Go enforces: optional `-`; either a
lone `0` or a nonzero digit followed by digits; optional fraction; optional
exponent. The lexeme is returned verbatim. -/
def scanNumber (cs : List Char) : Option (String × List Char) :=
  let (sign, cs1) := match cs with
    | '-' :: r => ((['-'] : List Char), r)
    | _ => (([] : List Char), cs)
  match cs1 with
  | [] => none
  | c :: r =>
      if isDig c then
        let (intPart, r1) :=
          if c = '0' then (([c] : List Char), r)
          else
            let (ds, r') := takeDigits r
            (c :: ds, r')
        match scanFracPart r1 with
        | none => none
        | some (fracPart, r2) =>
            match scanExpPart r2 with
            | none => none
            | some (expPart, r3) =>
                some (String.mk (sign ++ intPart ++ fracPart ++ expPart), r3)
      else none

mutual

/-- Decode one JSON value, returning it and the unread remainder. The fuel
argument only rules out nonterminating nesting; `goDecode` supplies more
fuel than any input can consume before erroring. -/
def decodeValue : Nat → List Char → Option (GoJson × List Char)
  | 0, _ => none
  | fuel + 1, cs =>
      match dropWs cs with
      | [] => none
      | c :: rest =>
          if c = 'n' then
            match rest with
            | 'u' :: 'l' :: 'l' :: r => some (GoJson.null, r)
            | _ => none
          else if c = 't' then
            match rest with
            | 'r' :: 'u' :: 'e' :: r => some (GoJson.bool true, r)
            | _ => none
          else if c = 'f' then
            match rest with
            | 'a' :: 'l' :: 's' :: 'e' :: r => some (GoJson.bool false, r)
            | _ => none
          else if c = quoteCh then
            match scanJString rest "" with
            | some (s, r) => some (GoJson.str s, r)
            | none => none
          else if c = '[' then
            match dropWs rest with
            | ']' :: r => some (GoJson.arr [], r)
            | rest' =>
                match decodeItems fuel rest' with
                | some (vs, r) => some (GoJson.arr vs, r)
                | none => none
          else if c = lbraceCh then
            match dropWs rest with
            | [] => none
            | c' :: r =>
                if c' = rbraceCh then some (GoJson.obj [], r)
                else
                  match decodeFields fuel (c' :: r) with
                  | some (ms, r2) => some (GoJson.obj ms, r2)
                  | none => none
          else if c = '-' ∨ isDig c then
            match scanNumber (c :: rest) with
            | some (lit, r) => some (GoJson.num lit, r)
            | none => none
          else none

/-- One or more comma-separated array items up to the closing bracket. -/
def decodeItems : Nat → List Char → Option (List GoJson × List Char)
  | 0, _ => none
  | fuel + 1, cs =>
      match decodeValue fuel cs with
      | none => none
      | some (v, r) =>
          match dropWs r with
          | ',' :: r' =>
              match decodeItems fuel r' with
              | some (vs, r2) => some (v :: vs, r2)
              | none => none
          | ']' :: r' => some ([v], r')
          | _ => none

/-- One or more comma-separated object members up to the closing brace. -/
def decodeFields : Nat → List Char → Option (List (String × GoJson) × List Char)
  | 0, _ => none
  | fuel + 1, cs =>
      match dropWs cs with
      | [] => none
      | c :: rest =>
          if c = quoteCh then
            match scanJString rest "" with
            | none => none
            | some (key, r1) =>
                match dropWs r1 with
                | ':' :: r2 =>
                    match decodeValue fuel r2 with
                    | none => none
                    | some (v, r3) =>
                        match dropWs r3 with
                        | [] => none
                        | c' :: r4 =>
                            if c' = ',' then
                              match decodeFields fuel r4 with
                              | some (ms, r5) => some ((key, v) :: ms, r5)
                              | none => none
                            else if c' = rbraceCh then some ([(key, v)], r4)
                            else none
                | _ => none
          else none

end

/-- `json.Decoder.Decode` into an interface value: decode the first JSON
value of the body; the remainder of the stream is left unread. `none` is a
decode error (including `io.EOF` on an empty or all-whitespace body). -/
def goDecode (body : String) : Option GoJson :=
  match decodeValue (2 * body.length + 2) body.toList with
  | some (v, _) => some v
  | none => none

/-- Whether the body is one complete JSON document: a single value followed
only by whitespace. (This is the plain meaning of "valid JSON" for a byte
string; `goDecode` deliberately accepts more.) -/
def validJsonDocument (body : String) : Bool :=
  match decodeValue (2 * body.length + 2) body.toList with
  | some (_, rest) => (dropWs rest).isEmpty
  | none => false

/-! ## The Echo handler (`handlers.go` lines 193-227) -/

/-- `models.EchoData`: the decoded value, first value per header name, and
the request method. -/
structure EchoData where
  echo : GoJson
  headers : List (String × String)
  method : String

/-- The loop at lines 208-213: keep each header's first value, dropping
names whose value list is empty. -/
def firstHeaderValues (hs : List (String × List String)) : List (String × String) :=
  hs.filterMap fun kv =>
    match kv.2 with
    | [] => none
    | v :: _ => some (kv.1, v)

/-- The two possible Echo responses: a 400 error envelope, or a 200 success
envelope (the success path never calls `WriteHeader`, so the status is the
implicit 200). -/
inductive EchoResponse where
  | invalid (status : Nat) (payload : ErrorResponse)
  | success (status : Nat) (payload : ResponseEnvelope EchoData)

/-- `Handlers.Echo`: decode the body; on error respond 400 with the fixed
`Invalid JSON` envelope and return; on success echo the decoded value with
the header map and method. -/
def Echo (r : Request) (now : String) : EchoResponse :=
  match goDecode r.body with
  | none =>
      .invalid 400
        { error := true
          message := "Invalid JSON"
          statusCode := 400
          timestamp := now }
  | some data =>
      .success 200
        { success := true
          data :=
            { echo := data
              headers := firstHeaderValues r.headers
              method := r.method }
          timestamp := now }

/-! ## The read-only GET handlers as a request sequence (`Index`, `Version`,
`Info` threaded through explicit state passing)

None of the handler bodies assigns to `h.appInfo` or `h.startTime`
(`handlers.go` lines 53-188 only read them), so each handler, embedded as a
state transformer, returns its `Handlers` receiver unchanged. -/

/-- `models.Documentation`. -/
structure Documentation where
  swagger : Option String
  postman : Option String
deriving Repr, DecidableEq

/-- `models.Links`. -/
structure Links where
  repository : String
  issues : String
deriving Repr, DecidableEq

/-- `models.Endpoint`. -/
structure Endpoint where
  path : String
  method : String
  description : String
deriving Repr, DecidableEq

/-- `models.WelcomeData`. -/
structure WelcomeData where
  message : String
  description : String
  documentation : Documentation
  links : Links
  endpoints : List Endpoint
deriving Repr, DecidableEq

/-- `Handlers.Index` (`handlers.go` lines 53-84): a fixed welcome payload;
the handler reads nothing from its receiver. -/
def Index (h : Handlers) (now : String) : ResponseEnvelope WelcomeData :=
  let _ := h
  { success := true
    data :=
      { message := "Welcome to learn-go API"
        description := "A simple Go microservice for learning and demonstration"
        documentation := { swagger := none, postman := none }
        links :=
          { repository := "https://github.com/dxas90/learn-go"
            issues := "https://github.com/dxas90/learn-go/issues" }
        endpoints :=
          [{ path := "/", method := "GET", description := "API welcome and documentation" },
           { path := "/ping", method := "GET", description := "Simple ping-pong response" },
           { path := "/healthz", method := "GET", description := "Health check endpoint" },
           { path := "/info", method := "GET", description := "Application and system information" },
           { path := "/version", method := "GET", description := "Application version information" },
           { path := "/echo", method := "POST", description := "Echo back the request body" },
           { path := "/openapi.json", method := "GET", description := "OpenAPI specification (JSON)" },
           { path := "/openapi.yaml", method := "GET", description := "OpenAPI specification (YAML)" },
           { path := "/metrics", method := "GET", description := "Prometheus metrics" }] }
    timestamp := now }

/-- The three read-only GET routes named by the idempotence property. -/
inductive RouteCall where
  | index
  | version
  | info
deriving Repr, DecidableEq

/-- Per-call ambient data: the environment read by `Info`, the system
snapshot, and the response-construction instant. -/
structure CallCtx where
  env : Env
  sys : SysSnapshot
  now : String

/-- What one call returns to the client. -/
inductive CallOutput where
  | welcomeOut (o : ResponseEnvelope WelcomeData)
  | versionOut (o : ResponseEnvelope VersionData)
  | infoOut (o : Except GoPanic (ResponseEnvelope InfoData))

/-- Dispatch one GET call: the handler runs on the current state and, since
its body contains no assignment to the receiver, hands the same state to the
next request. -/
def dispatch (h : Handlers) (c : RouteCall) (ctx : CallCtx) : Handlers × CallOutput :=
  match c with
  | .index => (h, .welcomeOut (Index h ctx.now))
  | .version => (h, .versionOut (Version h ctx.now))
  | .info => (h, .infoOut (Info h ctx.env ctx.sys ctx.now))

/-- Serve a sequence of GET calls, threading the handler state. -/
def serveSeq (h : Handlers) : List (RouteCall × CallCtx) → Handlers × List CallOutput
  | [] => (h, [])
  | (c, ctx) :: rest =>
      let step := dispatch h c ctx
      let tail := serveSeq step.1 rest
      (tail.1, step.2 :: tail.2)

/-! ## Helper lemmas -/

theorem runOps_append (a b : List WriterOp) (w : ResponseRecorder) :
    runOps (a ++ b) w = runOps b (runOps a w) := by
  simp [runOps, List.foldl_append]

theorem headerGet_headerSet_ne (hs : List (String × String)) (k' v' k : String)
    (hne : k' ≠ k) : headerGet (headerSet hs k' v') k = headerGet hs k := by
  induction hs with
  | nil => simp [headerSet, headerGet, hne]
  | cons kv rest ih =>
      obtain ⟨a, b⟩ := kv
      by_cases hak : a = k'
      · subst hak
        simp [headerSet, headerGet, hne]
      · simp [headerSet, headerGet, hak, ih]

/-- Headers a handler never sets pass through `runOps` untouched: neither
`writeHeader` nor `write` changes the header list, and `setHeader` on a
different name preserves the lookup. -/
theorem headerGet_runOps_of_not_set (ops : List WriterOp) (w : ResponseRecorder)
    (k : String) (hno : ∀ v, WriterOp.setHeader k v ∉ ops) :
    headerGet (runOps ops w).headers k = headerGet w.headers k := by
  induction ops generalizing w with
  | nil => rfl
  | cons op rest ih =>
      have hrest : ∀ v, WriterOp.setHeader k v ∉ rest := fun v hv =>
        hno v (List.mem_cons_of_mem _ hv)
      have hstep : runOps (op :: rest) w = runOps rest (applyOp w op) := rfl
      rw [hstep, ih _ hrest]
      cases op with
      | setHeader k' v' =>
          have hk : k' ≠ k := by
            intro e
            subst e
            exact hno v' (List.mem_cons_self _ _)
          by_cases hs : w.status.isSome
          · simp [applyOp, hs]
          · simp [applyOp, hs, headerGet_headerSet_ne _ _ _ _ hk]
      | writeHeader code =>
          by_cases hs : w.status.isSome
          · simp [applyOp, hs]
          · simp [applyOp, hs]
      | write s =>
          by_cases hs : w.status.isSome
          · simp [applyOp, hs]
          · simp [applyOp, hs]

theorem headerGet_firstHeaderValues_of_not_mem (hs : List (String × List String))
    (k : String) (hk : k ∉ hs.map Prod.fst) :
    headerGet (firstHeaderValues hs) k = none := by
  induction hs with
  | nil => rfl
  | cons kv rest ih =>
      obtain ⟨k', vs'⟩ := kv
      have hne : k' ≠ k := by
        intro e
        exact hk (by simp [e])
      have hk' : k ∉ rest.map Prod.fst := fun h => hk (by simp [h])
      cases vs' with
      | nil => simpa [firstHeaderValues] using ih hk'
      | cons v vs =>
          simpa [firstHeaderValues, headerGet, hne] using ih hk'

/-- With unique header names (a Go map invariant), the map built by the Echo
handler answers each name with the first value of that header. -/
theorem headerGet_firstHeaderValues (hs : List (String × List String))
    (hnd : (hs.map Prod.fst).Nodup) (k : String) (vs : List String)
    (hmem : (k, vs) ∈ hs) :
    headerGet (firstHeaderValues hs) k = vs.head? := by
  induction hs with
  | nil => cases hmem
  | cons kv rest ih =>
      obtain ⟨k', vs'⟩ := kv
      have hnd' : (rest.map Prod.fst).Nodup := (List.nodup_cons.mp (by simpa using hnd)).2
      have hknotin : k' ∉ rest.map Prod.fst := (List.nodup_cons.mp (by simpa using hnd)).1
      rcases List.mem_cons.mp hmem with heq | htail
      · cases heq
        cases vs with
        | nil =>
            simpa [firstHeaderValues] using
              headerGet_firstHeaderValues_of_not_mem rest k hknotin
        | cons v vrest => simp [firstHeaderValues, headerGet]
      · have hkrest : k ∈ rest.map Prod.fst := List.mem_map.mpr ⟨(k, vs), htail, rfl⟩
        have hne : k' ≠ k := fun e => hknotin (e ▸ hkrest)
        cases vs' with
        | nil => simpa [firstHeaderValues] using ih hnd' htail
        | cons v vrest => simpa [firstHeaderValues, headerGet, hne] using ih hnd' htail

theorem dispatch_fst (h : Handlers) (c : RouteCall) (ctx : CallCtx) :
    (dispatch h c ctx).1 = h := by
  cases c <;> rfl

/-! ## Claim theorems -/

/-- Claim C8: every GET request served by the `Ping` handler through the full
middleware chain yields status 200, body exactly `pong`, and content type
`text/plain` (the body is the bare literal, not a JSON envelope). -/
theorem ping_response (env : Env) (r : Request) (hm : r.method = "GET") :
    (serveChain env Ping r).body = "pong" ∧
    (serveChain env Ping r).status = some 200 ∧
    headerGet (serveChain env Ping r).headers "Content-Type" = some "text/plain" := by
  have hne : r.method = "OPTIONS" → False := by
    rw [hm]
    intro hfalse
    exact absurd hfalse (by decide)
  unfold serveChain middlewareChain LoggingMiddleware CORSMiddleware SecurityHeadersMiddleware
    MetricsMiddleware TracingMiddleware
  rw [if_neg hne]
  exact ⟨rfl, rfl, rfl⟩

/-- Witness for C8 at a concrete GET request and the all-unset environment. -/
theorem ping_response_witness :
    (serveChain emptyEnv Ping
        { method := "GET", path := "/ping", headers := [], body := "" }).body = "pong" ∧
    (serveChain emptyEnv Ping
        { method := "GET", path := "/ping", headers := [], body := "" }).status = some 200 ∧
    headerGet (serveChain emptyEnv Ping
        { method := "GET", path := "/ping", headers := [], body := "" }).headers
      "Content-Type" = some "text/plain" :=
  ping_response emptyEnv { method := "GET", path := "/ping", headers := [], body := "" } rfl

/-- Claim C6: for every OPTIONS request, the chain as installed by
`NewRouter` responds 200 with `Access-Control-Allow-Origin` equal to the
configured `CORS_ORIGIN` (default `*`), and the response is independent of
the wrapped handler — no downstream middleware or handler effect reaches the
wire. -/
theorem cors_preflight (env : Env) (h₁ h₂ : Handler) (r : Request)
    (hm : r.method = "OPTIONS") :
    serveChain env h₁ r = serveChain env h₂ r ∧
    (serveChain env h₁ r).status = some 200 ∧
    headerGet (serveChain env h₁ r).headers "Access-Control-Allow-Origin" =
      some (getenvDefault env "CORS_ORIGIN" "*") := by
  unfold serveChain middlewareChain LoggingMiddleware CORSMiddleware SecurityHeadersMiddleware
    MetricsMiddleware TracingMiddleware
  simp only [if_pos hm]
  exact ⟨trivial, rfl, rfl⟩

/-- Witness for C6: a concrete OPTIONS request, comparing the `Ping` handler
against a handler with no effects. -/
theorem cors_preflight_witness :
    serveChain emptyEnv Ping
        { method := "OPTIONS", path := "/ping", headers := [], body := "" } =
      serveChain emptyEnv silentHandler
        { method := "OPTIONS", path := "/ping", headers := [], body := "" } ∧
    (serveChain emptyEnv Ping
        { method := "OPTIONS", path := "/ping", headers := [], body := "" }).status = some 200 ∧
    headerGet (serveChain emptyEnv Ping
        { method := "OPTIONS", path := "/ping", headers := [], body := "" }).headers
      "Access-Control-Allow-Origin" = some (getenvDefault emptyEnv "CORS_ORIGIN" "*") :=
  cors_preflight emptyEnv Ping silentHandler
    { method := "OPTIONS", path := "/ping", headers := [], body := "" } rfl

/-- Counterexample to claim C3 as stated: an OPTIONS preflight response
produced by the installed chain (it does carry status 200 from the CORS
short-circuit) carries NEITHER `X-Frame-Options` nor
`X-Content-Type-Options`, because `router.go` applies `CORSMiddleware`
before (outside) `SecurityHeadersMiddleware` and the preflight branch
returns without calling the rest of the chain. -/
theorem security_headers_missing_on_preflight :
    (serveChain emptyEnv Ping
        { method := "OPTIONS", path := "/ping", headers := [], body := "" }).status = some 200 ∧
    headerGet (serveChain emptyEnv Ping
        { method := "OPTIONS", path := "/ping", headers := [], body := "" }).headers
      "X-Frame-Options" = none ∧
    headerGet (serveChain emptyEnv Ping
        { method := "OPTIONS", path := "/ping", headers := [], body := "" }).headers
      "X-Content-Type-Options" = none :=
  ⟨rfl, rfl, rfl⟩

/-- Claim C3 as amended: every response the chain produces for a
non-OPTIONS request whose route handler does not itself set the two security
headers carries `X-Frame-Options: DENY` and `X-Content-Type-Options:
nosniff`; OPTIONS preflight responses short-circuited by the CORS middleware
do not carry them. -/
theorem security_headers_on_non_preflight (env : Env) (h : Handler) (r : Request)
    (hm : r.method ≠ "OPTIONS")
    (hfo : ∀ v, WriterOp.setHeader "X-Frame-Options" v ∉ h r)
    (hcto : ∀ v, WriterOp.setHeader "X-Content-Type-Options" v ∉ h r) :
    headerGet (serveChain env h r).headers "X-Frame-Options" = some "DENY" ∧
    headerGet (serveChain env h r).headers "X-Content-Type-Options" = some "nosniff" := by
  have hchain : serveChain env h r =
      runOps (h r)
        (runOps
          [WriterOp.setHeader "Access-Control-Allow-Origin"
              (if env "CORS_ORIGIN" = "" then "*" else env "CORS_ORIGIN"),
           WriterOp.setHeader "Access-Control-Allow-Methods" "GET, POST, PUT, DELETE, OPTIONS",
           WriterOp.setHeader "Access-Control-Allow-Headers" "Content-Type, Authorization",
           WriterOp.setHeader "X-Content-Type-Options" "nosniff",
           WriterOp.setHeader "X-Frame-Options" "DENY",
           WriterOp.setHeader "X-XSS-Protection" "1; mode=block",
           WriterOp.setHeader "Referrer-Policy" "strict-origin-when-cross-origin",
           WriterOp.setHeader "Content-Security-Policy" "default-src \x27self\x27"]
          ResponseRecorder.init) := by
    unfold serveChain middlewareChain LoggingMiddleware CORSMiddleware SecurityHeadersMiddleware
      MetricsMiddleware TracingMiddleware
    rw [if_neg hm]
    rw [show ∀ a b c d e f g h' tl,
        ([a, b, c] ++ ([d, e, f, g, h'] ++ tl) : List WriterOp) =
          [a, b, c, d, e, f, g, h'] ++ tl from fun _ _ _ _ _ _ _ _ _ => rfl]
    exact runOps_append _ _ _
  rw [hchain]
  rw [headerGet_runOps_of_not_set _ _ _ hfo, headerGet_runOps_of_not_set _ _ _ hcto]
  exact ⟨rfl, rfl⟩

/-- Witness for the amended C3 at a concrete GET request served by `Ping`
(whose effect list sets neither security header). -/
theorem security_headers_on_non_preflight_witness :
    headerGet (serveChain emptyEnv Ping
        { method := "GET", path := "/ping", headers := [], body := "" }).headers
      "X-Frame-Options" = some "DENY" ∧
    headerGet (serveChain emptyEnv Ping
        { method := "GET", path := "/ping", headers := [], body := "" }).headers
      "X-Content-Type-Options" = some "nosniff" :=
  security_headers_on_non_preflight emptyEnv Ping
    { method := "GET", path := "/ping", headers := [], body := "" }
    (by decide)
    (by
      intro v hv
      simp [Ping] at hv)
    (by
      intro v hv
      simp [Ping] at hv)

/-- Claim C1 (code bug): the memory percent in `Healthz` is
`rss * 100 / total` in `uint64` arithmetic when `total` is nonzero (second
conjunct: `rss = 3`, `total = 8` gives `⌊300 / 8⌋ = 37`), but when the total
memory reads as 0 the unguarded division at `handlers.go` line 112 is a Go
integer-divide-by-zero run-time panic — the handler faults instead of
reporting percent 0 as the contract requires. -/
theorem healthz_divide_by_zero_fault :
    Healthz
        { appInfo :=
            { name := "learn-go", version := "0.0.1", environment := "development",
              timestamp := "2026-10-11T00:00:00Z" }
          startTime := 0 }
        { memInfo := some { rss := 1000, vms := 500 }
          virtualMem := some { total := 0, available := 0, used := 0 }
          cpuPercent := [0], cpuCount := 1, uptime := 7
          goos := "linux", goarch := "amd64", goVersion := "go1.24" }
        "2026-10-11T00:00:07Z" = .error .divideByZero ∧
    Healthz
        { appInfo :=
            { name := "learn-go", version := "0.0.1", environment := "development",
              timestamp := "2026-10-11T00:00:00Z" }
          startTime := 0 }
        { memInfo := some { rss := 3, vms := 5 }
          virtualMem := some { total := 8, available := 2, used := 6 }
          cpuPercent := [0], cpuCount := 1, uptime := 7
          goos := "linux", goarch := "amd64", goVersion := "go1.24" }
        "2026-10-11T00:00:07Z" =
      .ok
        { success := true
          data :=
            { status := "healthy", uptime := 7, timestamp := "2026-10-11T00:00:07Z"
              memory := { rss := 3, vms := 5, percent := 37, available := 2, total := 8, used := 0 }
              version := "0.0.1", environment := "development" }
          timestamp := "2026-10-11T00:00:07Z" } :=
  ⟨rfl, rfl⟩

/-- Claim C2 (code bug): when an introspection call fails, its discarded
error comes with a nil pointer (or an empty slice); the handler body then
dereferences (`memInfo.RSS`, `virtualMem.Total` at `handlers.go` lines
110-114 and 148-153) or indexes (`cpuPercent[0]` at line 157) it, which is a
Go run-time panic — not an HTTP 200 with zeroed fields. -/
theorem introspection_failure_panics :
    Healthz
        { appInfo :=
            { name := "learn-go", version := "0.0.1", environment := "development",
              timestamp := "2026-10-11T00:00:00Z" }
          startTime := 0 }
        { memInfo := none
          virtualMem := some { total := 16, available := 8, used := 8 }
          cpuPercent := [0], cpuCount := 1, uptime := 7
          goos := "linux", goarch := "amd64", goVersion := "go1.24" }
        "2026-10-11T00:00:07Z" = .error .nilDereference ∧
    Healthz
        { appInfo :=
            { name := "learn-go", version := "0.0.1", environment := "development",
              timestamp := "2026-10-11T00:00:00Z" }
          startTime := 0 }
        { memInfo := some { rss := 3, vms := 5 }
          virtualMem := none
          cpuPercent := [0], cpuCount := 1, uptime := 7
          goos := "linux", goarch := "amd64", goVersion := "go1.24" }
        "2026-10-11T00:00:07Z" = .error .nilDereference ∧
    Info
        { appInfo :=
            { name := "learn-go", version := "0.0.1", environment := "development",
              timestamp := "2026-10-11T00:00:00Z" }
          startTime := 0 }
        emptyEnv
        { memInfo := some { rss := 3, vms := 5 }
          virtualMem := some { total := 16, available := 8, used := 8 }
          cpuPercent := [], cpuCount := 1, uptime := 7
          goos := "linux", goarch := "amd64", goVersion := "go1.24" }
        "2026-10-11T00:00:07Z" = .error .indexOutOfRange :=
  ⟨rfl, rfl, rfl⟩

/-- Claim C7: for every environment and every request instant, the `Version`
handler built by `NewHandlers` reports `name = "learn-go"` and the
`APP_VERSION` environment value read at construction, with default `0.0.1`
when it reads as unset. -/
theorem version_reports_app_version (env : Env) (constructionNow : String)
    (startClock : Nat) (now : String) :
    (Version (NewHandlers env constructionNow startClock) now).data.name = "learn-go" ∧
    (Version (NewHandlers env constructionNow startClock) now).data.version =
      (if env "APP_VERSION" = "" then "0.0.1" else env "APP_VERSION") :=
  ⟨rfl, rfl⟩

/-- Claim C9: threading the handler state through any sequence of GET calls
to `/`, `/version`, `/info` leaves it unchanged (no handler body assigns to
the `AppInfo` fields or the start time), and every call in the sequence
observes exactly the output computed from the original state — repeated
calls see identical `AppInfo` values. -/
theorem appinfo_never_mutated (h : Handlers) (calls : List (RouteCall × CallCtx)) :
    (serveSeq h calls).1 = h ∧
    (serveSeq h calls).2 = calls.map fun c => (dispatch h c.1 c.2).2 := by
  induction calls with
  | nil => exact ⟨rfl, rfl⟩
  | cons c rest ih =>
      obtain ⟨call, ctx⟩ := c
      simp only [serveSeq, dispatch_fst, List.map_cons]
      exact ⟨ih.1, by rw [ih.2]⟩

/-- Counterexample to claim C4 as stated: the body `true false` is not a
valid JSON document, yet `Echo` answers 200 and reflects its first value —
`json.Decoder.Decode` stops after one complete JSON value and never sees the
trailing bytes, so no 400 is produced and part of the body IS echoed. -/
theorem echo_trailing_data_counterexample :
    validJsonDocument "true false" = false ∧
    Echo { method := "POST", path := "/echo", headers := [], body := "true false" }
        "2026-10-11T00:00:00Z" =
      .success 200
        { success := true
          data := { echo := GoJson.bool true, headers := [], method := "POST" }
          timestamp := "2026-10-11T00:00:00Z" } :=
  ⟨rfl, rfl⟩

/-- Claim C4 as amended: for every body on which the JSON decode of the
first value fails (as `json.Decoder.Decode` does), `Echo` responds 400 with
exactly the envelope `error=true, message="Invalid JSON", statusCode=400`
and a non-empty timestamp, echoing nothing; a body consisting of one valid
JSON value followed by trailing data, however, is not rejected — its first
value is echoed with status 200. -/
theorem echo_invalid_json_envelope (r : Request) (now : String)
    (hdec : goDecode r.body = none) (hnow : now ≠ "") :
    Echo r now =
      .invalid 400
        { error := true, message := "Invalid JSON", statusCode := 400, timestamp := now } ∧
    now ≠ "" := by
  refine ⟨?_, hnow⟩
  unfold Echo
  rw [hdec]

/-- Witness for the amended C4 at the body `not json` (the spec's own
example of a malformed body). -/
theorem echo_invalid_json_envelope_witness :
    Echo { method := "POST", path := "/echo", headers := [], body := "not json" }
        "2026-10-11T09:00:00Z" =
      .invalid 400
        { error := true, message := "Invalid JSON", statusCode := 400,
          timestamp := "2026-10-11T09:00:00Z" } ∧
    ("2026-10-11T09:00:00Z" : String) ≠ "" :=
  echo_invalid_json_envelope
    { method := "POST", path := "/echo", headers := [], body := "not json" }
    "2026-10-11T09:00:00Z" rfl (by decide)

/-- Claim C5: for every body whose JSON decode succeeds with value `v`,
`Echo` on a POST answers 200 with `data.echo = v` (the decoded value
verbatim), `data.method = "POST"`, and `data.headers` answering each request
header name with that header's first value (header names are unique, as in a
Go map). -/
theorem echo_success_reflects (r : Request) (now : String) (v : GoJson)
    (hdec : goDecode r.body = some v) (hm : r.method = "POST")
    (hnd : (r.headers.map Prod.fst).Nodup) :
    Echo r now =
      .success 200
        { success := true
          data := { echo := v, headers := firstHeaderValues r.headers, method := "POST" }
          timestamp := now } ∧
    ∀ k vs, (k, vs) ∈ r.headers →
      headerGet (firstHeaderValues r.headers) k = vs.head? := by
  constructor
  · unfold Echo
    rw [hdec, hm]
  · intro k vs hmem
    exact headerGet_firstHeaderValues r.headers hnd k vs hmem

/-- Witness for C5: a concrete POST of `[true, null]` with one multi-valued
header and one empty-valued header. -/
theorem echo_success_reflects_witness :
    Echo
        { method := "POST", path := "/echo",
          headers := [("User-Agent", ["curl/8", "other"]), ("Accept", [])],
          body := "[true, null]" }
        "2026-10-11T10:00:00Z" =
      .success 200
        { success := true
          data :=
            { echo := GoJson.arr [GoJson.bool true, GoJson.null]
              headers :=
                firstHeaderValues [("User-Agent", ["curl/8", "other"]), ("Accept", [])]
              method := "POST" }
          timestamp := "2026-10-11T10:00:00Z" } ∧
    ∀ k vs,
      (k, vs) ∈ ([("User-Agent", ["curl/8", "other"]), ("Accept", [])] :
          List (String × List String)) →
      headerGet
          (firstHeaderValues [("User-Agent", ["curl/8", "other"]), ("Accept", [])]) k =
        vs.head? :=
  echo_success_reflects
    { method := "POST", path := "/echo",
      headers := [("User-Agent", ["curl/8", "other"]), ("Accept", [])],
      body := "[true, null]" }
    "2026-10-11T10:00:00Z"
    (GoJson.arr [GoJson.bool true, GoJson.null]) rfl rfl (by decide)

/-- Claim C10: a POST to `/echo` with an empty body takes the same path as
malformed JSON — the decode fails (`io.EOF`) and the handler answers 400
with the `Invalid JSON` envelope, for every header map and timestamp; an
empty body is never echoed as a success. -/
theorem echo_empty_body_rejected (hs : List (String × List String)) (p now : String) :
    Echo { method := "POST", path := p, headers := hs, body := "" } now =
      .invalid 400
        { error := true, message := "Invalid JSON", statusCode := 400, timestamp := now } :=
  rfl

end LearnGo
